import Mathlib

/-!
Shallow embedding of `body_mapping_v2/2D_mapping/darwinian_evolution/genotype.py`:
the composite genotype data model, the three variation operators (`random`,
`mutate`, `crossover`), and the batch persistence adapter (`GenotypeSerializer`).

External collaborators (the CPPNWIN body encoder, the array brain encoder, the
float scalar serializer, the Python stdlib random source and the multineat RNG)
are not part of the repository's source; they are embedded as parameters or as
explicit models of their documented contracts.  All state threading (random
source, innovation database, database session) is explicit.
-/

/-- Python stdlib random source, modelled as a pure stream of natural-number
draws together with a cursor.  Each primitive draw consumes one stream element
and advances the cursor by one. -/
structure Rng where
  stream : Nat → Nat
  pos : Nat

/-- Consume one raw draw from the source. -/
def Rng.next (r : Rng) : Nat × Rng :=
  (r.stream r.pos, ⟨r.stream, r.pos + 1⟩)

/-- Modelled from the spec: Python `Random.randint(lo, hi)` (the stdlib random
source used by `genotype.py`, not part of this repository) returns a uniformly
chosen integer in the inclusive range `[lo, hi]` and advances the source by one
draw.  The model realises the range contract by reducing the raw draw modulo
the size of the inclusive range. -/
def Rng.randint (r : Rng) (lo hi : Nat) : Nat × Rng :=
  let p := r.next
  (lo + p.1 % (hi - lo + 1), p.2)

/-- The multineat RNG handle: `multineat.RNG()` followed by `.Seed(s)` leaves it
fully determined by the seed it was given. -/
structure MultineatRNG where
  seed : Nat
deriving DecidableEq

/-- Activation functions of the multineat library (only `TANH` is used by
`genotype.py`). -/
inductive ActivationFunction where
  | TANH
  | SIGNED_SIGMOID
  | LINEAR
deriving DecidableEq

/-- The multineat parameter bundle, restricted to the fields assigned by
`_make_multineat_params`.  Python float literals are embedded as rationals. -/
structure MultineatParameters where
  MutateRemLinkProb : Rat
  RecurrentProb : Rat
  OverallMutationRate : Rat
  MutateAddLinkProb : Rat
  MutateAddNeuronProb : Rat
  MutateWeightsProb : Rat
  MaxWeight : Rat
  WeightMutationMaxPower : Rat
  WeightReplacementMaxPower : Rat
  MutateActivationAProb : Rat
  ActivationAMutationMaxPower : Rat
  MinActivationA : Rat
  MaxActivationA : Rat
  MutateNeuronActivationTypeProb : Rat
  MutateOutputActivationFunction : Bool
  ActivationFunction_SignedSigmoid_Prob : Rat
  ActivationFunction_UnsignedSigmoid_Prob : Rat
  ActivationFunction_Tanh_Prob : Rat
  ActivationFunction_TanhCubic_Prob : Rat
  ActivationFunction_SignedStep_Prob : Rat
  ActivationFunction_UnsignedStep_Prob : Rat
  ActivationFunction_SignedGauss_Prob : Rat
  ActivationFunction_UnsignedGauss_Prob : Rat
  ActivationFunction_Abs_Prob : Rat
  ActivationFunction_SignedSine_Prob : Rat
  ActivationFunction_UnsignedSine_Prob : Rat
  ActivationFunction_Linear_Prob : Rat
  MutateNeuronTraitsProb : Rat
  MutateLinkTraitsProb : Rat
  AllowLoops : Bool
deriving DecidableEq

/-- Embeds `_make_multineat_params`: builds the fixed parameter bundle. -/
def _make_multineat_params : MultineatParameters where
  MutateRemLinkProb := 2/100
  RecurrentProb := 0
  OverallMutationRate := 15/100
  MutateAddLinkProb := 8/100
  MutateAddNeuronProb := 1/100
  MutateWeightsProb := 90/100
  MaxWeight := 8
  WeightMutationMaxPower := 2/10
  WeightReplacementMaxPower := 1
  MutateActivationAProb := 0
  ActivationAMutationMaxPower := 5/10
  MinActivationA := 5/100
  MaxActivationA := 6
  MutateNeuronActivationTypeProb := 3/100
  MutateOutputActivationFunction := false
  ActivationFunction_SignedSigmoid_Prob := 0
  ActivationFunction_UnsignedSigmoid_Prob := 0
  ActivationFunction_Tanh_Prob := 1
  ActivationFunction_TanhCubic_Prob := 0
  ActivationFunction_SignedStep_Prob := 1
  ActivationFunction_UnsignedStep_Prob := 0
  ActivationFunction_SignedGauss_Prob := 1
  ActivationFunction_UnsignedGauss_Prob := 0
  ActivationFunction_Abs_Prob := 0
  ActivationFunction_SignedSine_Prob := 1
  ActivationFunction_UnsignedSine_Prob := 0
  ActivationFunction_Linear_Prob := 1
  MutateNeuronTraitsProb := 0
  MutateLinkTraitsProb := 0
  AllowLoops := false

/-- Embeds `_MULTINEAT_PARAMS`: module-level constant, built once. -/
def _MULTINEAT_PARAMS : MultineatParameters := _make_multineat_params

/-- The `Genotype` dataclass: one body sub-genotype, one brain sub-genotype,
one inherited integer seed.  The sub-genotype handle types `β` (CPPNWIN body)
and `γ` (array brain) are external and kept abstract. -/
structure Genotype (β γ : Type) where
  body : β
  brain : γ
  random_seed : Int
deriving DecidableEq

/-- External CPPNWIN body encoder (`body_random` / `mutate_v1` /
`crossover_v1`), with `δ` the state of the multineat innovation database the
calls mutate in place. -/
structure BodyEncoder (β δ : Type) where
  random_v1 : δ → MultineatRNG → MultineatParameters → ActivationFunction → Nat → β × δ
  mutate_v1 : β → MultineatParameters → δ → MultineatRNG → β × δ
  crossover_v1 : β → β → MultineatParameters → MultineatRNG → Bool → Bool → β

/-- External array brain encoder (`random_array_genotype` / `brain_mutation` /
`brain_crossover`).  Brain random generation draws from the supplied Python
random source; mutation and crossover take only numeric parameters. -/
structure BrainEncoder (γ : Type) where
  random_array_genotype : Nat → Rng → γ × Rng
  brain_mutation : γ → Rat → Rat → Rat → γ
  brain_crossover : γ → γ → Rat → Bool → γ

/-- Embeds `_multineat_rng_from_random`: seed a fresh multineat RNG with one
`randint(0, 2**31)` draw from the supplied random source. -/
def _multineat_rng_from_random (rng : Rng) : MultineatRNG × Rng :=
  let p := rng.randint 0 (2 ^ 31)
  (⟨p.1⟩, p.2)

/-- Embeds `random`: create a random composite genotype.  Returns the genotype
together with the updated innovation database and random source. -/
def Genotype.random {β γ δ : Type} (BE : BodyEncoder β δ) (BR : BrainEncoder γ)
    (innov_db_body : δ) (rng : Rng)
    (num_initial_mutations robot_grid_size : Nat) :
    Genotype β γ × δ × Rng :=
  let m := _multineat_rng_from_random rng
  let b := BE.random_v1 innov_db_body m.1 _MULTINEAT_PARAMS ActivationFunction.TANH
    num_initial_mutations
  let br := BR.random_array_genotype robot_grid_size m.2
  let s := br.2.randint 1 10000
  (⟨b.1, br.1, (s.1 : Int)⟩, b.2, s.2)

/-- Embeds `mutate`: mutated copy of a genotype.  `innov_db_brain` is accepted but
unused, exactly as in the source.  Returns the new genotype together with the
updated body innovation database and random source. -/
def Genotype.mutate {β γ δ : Type} (BE : BodyEncoder β δ) (BR : BrainEncoder γ)
    (genotype : Genotype β γ) (innov_db_body : δ) (innov_db_brain : δ)
    (rng : Rng) : Genotype β γ × δ × Rng :=
  let _ := innov_db_brain
  let m := _multineat_rng_from_random rng
  let b := BE.mutate_v1 genotype.body _MULTINEAT_PARAMS innov_db_body m.1
  (⟨b.1, BR.brain_mutation genotype.brain 0 (1/2) (8/10), genotype.random_seed⟩,
    b.2, m.2)

/-- Embeds `crossover`: recombine two genotypes.  Returns the new genotype together
with the updated random source. -/
def Genotype.crossover {β γ δ : Type} (BE : BodyEncoder β δ) (BR : BrainEncoder γ)
    (parent1 parent2 : Genotype β γ) (rng : Rng) (first_best : Bool) :
    Genotype β γ × Rng :=
  let m := _multineat_rng_from_random rng
  let body := BE.crossover_v1 parent1.body parent2.body _MULTINEAT_PARAMS m.1
    false false
  let brain := BR.brain_crossover parent1.brain parent2.brain (1/2) first_best
  let random_seed := if first_best then parent1.random_seed else parent2.random_seed
  (⟨body, brain, random_seed⟩, m.2)

/-! ### Heap model for the Python object semantics of the operators

Python dataclass instances live on a heap and are mutable in place; the spec's
frame claims (inputs never modified, results freshly constructed) are stated
over an explicit heap of genotype objects, with addresses as indices.  The
operator bodies contain no field assignment, so their heap translations only
read existing objects and allocate the one new object they return. -/

/-- A heap of genotype objects; an address is an index into `objs`. -/
structure Heap (β γ : Type) where
  objs : List (Genotype β γ)

/-- Dereference an address. -/
def Heap.get {β γ : Type} (h : Heap β γ) (a : Nat) : Option (Genotype β γ) :=
  h.objs[a]?

/-- Allocate a fresh object, returning the new heap and the fresh address. -/
def Heap.alloc {β γ : Type} (h : Heap β γ) (g : Genotype β γ) :
    Heap β γ × Nat :=
  (⟨h.objs ++ [g]⟩, h.objs.length)

/-- Heap-level `mutate`: dereference the input genotype, run the pure
operator, allocate the freshly constructed result. -/
def Genotype.mutateH {β γ δ : Type} (BE : BodyEncoder β δ) (BR : BrainEncoder γ)
    (h : Heap β γ) (a : Nat) (innov_db_body innov_db_brain : δ) (rng : Rng) :
    Option (Heap β γ × Nat × δ × Rng) :=
  match h.get a with
  | none => none
  | some g =>
    let r := Genotype.mutate BE BR g innov_db_body innov_db_brain rng
    let al := h.alloc r.1
    some (al.1, al.2, r.2.1, r.2.2)

/-- Heap-level `crossover`: dereference both parents, run the pure operator,
allocate the freshly constructed child. -/
def Genotype.crossoverH {β γ δ : Type} (BE : BodyEncoder β δ) (BR : BrainEncoder γ)
    (h : Heap β γ) (a1 a2 : Nat) (rng : Rng) (first_best : Bool) :
    Option (Heap β γ × Nat × Rng) :=
  match h.get a1, h.get a2 with
  | some p1, some p2 =>
    let r := Genotype.crossover BE BR p1 p2 rng first_best
    let al := h.alloc r.1
    some (al.1, al.2, r.2)
  | _, _ => none

/-- Heap-level `random`: run the pure operator, allocate the freshly
constructed genotype. -/
def Genotype.randomH {β γ δ : Type} (BE : BodyEncoder β δ) (BR : BrainEncoder γ)
    (h : Heap β γ) (innov_db_body : δ) (rng : Rng)
    (num_initial_mutations robot_grid_size : Nat) :
    Heap β γ × Nat × δ × Rng :=
  let r := Genotype.random BE BR innov_db_body rng num_initial_mutations
    robot_grid_size
  let al := h.alloc r.1
  (al.1, al.2, r.2.1, r.2.2)

/-! ### Persistence adapter -/

/-- A row of the `genotype` table: three non-null foreign ids (the primary key
is the row's position key in `DbState.genotypeRows`). -/
structure DbGenotypeRow where
  body_id : Nat
  brain_id : Nat
  seed_id : Nat
deriving DecidableEq

/-- Failure modes of `from_database`: `incompatible` is `IncompatibleError`;
`keyError` is a failed dict lookup in `id_map`; `componentError` is a failure
propagated from a component deserializer. -/
inductive DbError where
  | incompatible
  | keyError
  | componentError
deriving DecidableEq

/-- The database state visible to `GenotypeSerializer`: one store per external
component serializer (body, brain, seed — `σb`, `σr`, `σs`), plus the
`genotype` table itself, modelled as an autoincrement counter and the list of
`(id, row)` pairs in insertion order. -/
structure DbState (σb σr σs : Type) where
  bodyStore : σb
  brainStore : σr
  seedStore : σs
  genotypeNext : Nat
  genotypeRows : List (Nat × DbGenotypeRow)

/-- Pairing, `zip`-style, of the three parallel id lists into table rows, as the
comprehension over `zip(body_ids, brain_ids, seed_ids)` does. -/
def zip3Rows : List Nat → List Nat → List Nat → List DbGenotypeRow
  | b :: bs, r :: rs, s :: ss => ⟨b, r, s⟩ :: zip3Rows bs rs ss
  | _, _, _ => []

/-- Pairing, `zip`-style, of the three parallel component lists into genotypes,
as the comprehension over `zip(body_genotypes, brain_genotypes, random_seeds)`
does. -/
def zip3Geno {β γ : Type} : List β → List γ → List Int → List (Genotype β γ)
  | b :: bs, r :: rs, s :: ss => ⟨b, r, s⟩ :: zip3Geno bs rs ss
  | _, _, _ => []

/-- Embeds `GenotypeSerializer.to_database`, parameterised by the `to_database`
methods of the three component serializers.  The flush assigns consecutive
fresh non-null primary keys (the schema's autoincrement non-null guarantee);
the id-collection then keeps the non-null ids, and the final length assertion
is modelled by returning `none` when it would fire. -/
def GenotypeSerializer.to_database {β γ σb σr σs : Type}
    (bodyToDb : σb → List β → List Nat × σb)
    (brainToDb : σr → List γ → List Nat × σr)
    (seedToDb : σs → List Int → List Nat × σs)
    (db : DbState σb σr σs) (objects : List (Genotype β γ)) :
    Option (List Nat × DbState σb σr σs) :=
  let b := bodyToDb db.bodyStore (objects.map (·.body))
  let r := brainToDb db.brainStore (objects.map (·.brain))
  let s := seedToDb db.seedStore (objects.map (·.random_seed))
  let dbgenotypes := zip3Rows b.1 r.1 s.1
  let n := dbgenotypes.length
  let assignedIds : List (Option Nat) := (List.range' db.genotypeNext n).map some
  let ids := assignedIds.filterMap id
  if ids.length = objects.length then
    some (ids,
      { bodyStore := b.2, brainStore := r.2, seedStore := s.2,
        genotypeNext := db.genotypeNext + n,
        genotypeRows :=
          db.genotypeRows ++ (List.range' db.genotypeNext n).zip dbgenotypes })
  else
    none

/-- Embeds `GenotypeSerializer.from_database`, parameterised by the `from_database`
methods of the three component serializers.  `rows` is the result of
`select ... filter id in ids`: each stored row whose id is in the requested
list, each exactly once.  The `id_map` dict lookup is `find?` over those rows;
the three foreign-id lists are read off the looked-up rows in request order and
batch-dispatched to the components, and the three results are zipped in
request order. -/
def GenotypeSerializer.from_database {β γ σb σr σs : Type}
    (bodyFromDb : σb → List Nat → Option (List β))
    (brainFromDb : σr → List Nat → Option (List γ))
    (seedFromDb : σs → List Nat → Option (List Int))
    (db : DbState σb σr σs) (ids : List Nat) :
    Except DbError (List (Genotype β γ)) :=
  let rows := db.genotypeRows.filter (fun t => decide (t.1 ∈ ids))
  if rows.length ≠ ids.length then
    .error .incompatible
  else
    match ids.mapM (fun i => (rows.find? (fun t => decide (t.1 = i))).map (·.2)) with
    | none => .error .keyError
    | some looked =>
      let body_ids := looked.map (·.body_id)
      let brain_ids := looked.map (·.brain_id)
      let seed_ids := looked.map (·.seed_id)
      match bodyFromDb db.bodyStore body_ids,
            brainFromDb db.brainStore brain_ids,
            seedFromDb db.seedStore seed_ids with
      | some body_genotypes, some brain_genotypes, some random_seeds =>
        .ok (zip3Geno body_genotypes brain_genotypes random_seeds)
      | _, _, _ => .error .componentError

/-! ### Concrete model components

Concrete instantiations of the external collaborators, used to evaluate the
embedded operations on explicit inputs. -/

/-- A concrete component store satisfying the uniform collaborator contract:
serialization appends the values under consecutive fresh ids and returns those
ids in order; deserialization looks each requested id up. -/
structure ModelStore (α : Type) where
  next : Nat
  rows : List (Nat × α)

/-- Model component `to_database`. -/
def ModelStore.toDb {α : Type} (s : ModelStore α) (xs : List α) :
    List Nat × ModelStore α :=
  (List.range' s.next xs.length,
    ⟨s.next + xs.length, s.rows ++ (List.range' s.next xs.length).zip xs⟩)

/-- Model component `from_database`. -/
def ModelStore.fromDb {α : Type} (s : ModelStore α) (ids : List Nat) :
    Option (List α) :=
  ids.mapM (fun i => (s.rows.find? (fun t => decide (t.1 = i))).map (·.2))

/-- A concrete body encoder over `Nat` handles, with a `Nat` innovation
database state. -/
def natBodyEncoder : BodyEncoder Nat Nat where
  random_v1 := fun d m _ _ n => (m.seed + n + d, d + 1)
  mutate_v1 := fun b _ d m => (b + m.seed + 1, d + 1)
  crossover_v1 := fun b1 b2 _ m f1 f2 =>
    b1 + 2 * b2 + m.seed + (if f1 then 1 else 0) + (if f2 then 3 else 0)

/-- A concrete brain encoder over `Nat` handles. -/
def natBrainEncoder : BrainEncoder Nat where
  random_array_genotype := fun sz r => (sz + r.next.1, r.next.2)
  brain_mutation := fun g _ _ _ => g + 1
  brain_crossover := fun g1 g2 _ f => if f then g1 else 10 * g2

/-- A concrete random source. -/
def rng0 : Rng := ⟨fun k => 5 * k + 3, 0⟩

/-! ### Helper lemmas -/

/-- Rows built by `zip3Rows` from three equal-length id lists: there are as
many rows as ids. -/
theorem zip3Rows_length : ∀ (bs rs ss : List Nat), rs.length = bs.length →
    ss.length = bs.length → (zip3Rows bs rs ss).length = bs.length := by
  intro bs
  induction bs with
  | nil =>
    intro rs ss h1 h2
    rw [List.length_nil, List.length_eq_zero] at h1 h2
    subst h1; subst h2; rfl
  | cons b bs ih =>
    intro rs ss h1 h2
    cases rs with
    | nil => simp at h1
    | cons r rs =>
      cases ss with
      | nil => simp at h2
      | cons s ss =>
        simp only [zip3Rows, List.length_cons] at h1 h2 ⊢
        rw [ih rs ss (by omega) (by omega)]

/-- Reading the body ids back off `zip3Rows` rows recovers the body id list. -/
theorem zip3Rows_map_body : ∀ (bs rs ss : List Nat), rs.length = bs.length →
    ss.length = bs.length → (zip3Rows bs rs ss).map (·.body_id) = bs := by
  intro bs
  induction bs with
  | nil =>
    intro rs ss h1 h2
    rw [List.length_nil, List.length_eq_zero] at h1 h2
    subst h1; subst h2; rfl
  | cons b bs ih =>
    intro rs ss h1 h2
    cases rs with
    | nil => simp at h1
    | cons r rs =>
      cases ss with
      | nil => simp at h2
      | cons s ss =>
        simp only [zip3Rows, List.length_cons, List.map_cons] at h1 h2 ⊢
        rw [ih rs ss (by omega) (by omega)]

/-- Reading the brain ids back off `zip3Rows` rows recovers the brain id
list. -/
theorem zip3Rows_map_brain : ∀ (bs rs ss : List Nat), rs.length = bs.length →
    ss.length = bs.length → (zip3Rows bs rs ss).map (·.brain_id) = rs := by
  intro bs
  induction bs with
  | nil =>
    intro rs ss h1 h2
    rw [List.length_nil, List.length_eq_zero] at h1 h2
    subst h1; subst h2; rfl
  | cons b bs ih =>
    intro rs ss h1 h2
    cases rs with
    | nil => simp at h1
    | cons r rs =>
      cases ss with
      | nil => simp at h2
      | cons s ss =>
        simp only [zip3Rows, List.length_cons, List.map_cons] at h1 h2 ⊢
        rw [ih rs ss (by omega) (by omega)]

/-- Reading the seed ids back off `zip3Rows` rows recovers the seed id list. -/
theorem zip3Rows_map_seed : ∀ (bs rs ss : List Nat), rs.length = bs.length →
    ss.length = bs.length → (zip3Rows bs rs ss).map (·.seed_id) = ss := by
  intro bs
  induction bs with
  | nil =>
    intro rs ss h1 h2
    rw [List.length_nil, List.length_eq_zero] at h1 h2
    subst h1; subst h2; rfl
  | cons b bs ih =>
    intro rs ss h1 h2
    cases rs with
    | nil => simp at h1
    | cons r rs =>
      cases ss with
      | nil => simp at h2
      | cons s ss =>
        simp only [zip3Rows, List.length_cons, List.map_cons] at h1 h2 ⊢
        rw [ih rs ss (by omega) (by omega)]

/-- Zipping the three projections of a genotype list back together recovers the
list. -/
theorem zip3Geno_proj {β γ : Type} : ∀ L : List (Genotype β γ),
    zip3Geno (L.map (·.body)) (L.map (·.brain)) (L.map (·.random_seed)) = L := by
  intro L
  induction L with
  | nil => rfl
  | cons g L ih => simp only [List.map_cons, zip3Geno, ih]

/-- Allocation leaves every existing heap address unchanged. -/
theorem Heap.get_alloc_lt {β γ : Type} (h : Heap β γ) (g : Genotype β γ)
    (x : Nat) (hx : x < h.objs.length) : (h.alloc g).1.get x = h.get x := by
  simp [Heap.alloc, Heap.get, List.getElem?_append_left hx]

/-- The freshly allocated address holds the allocated object. -/
theorem Heap.get_alloc_self {β γ : Type} (h : Heap β γ) (g : Genotype β γ) :
    (h.alloc g).1.get h.objs.length = some g := by
  simp [Heap.alloc, Heap.get, List.getElem?_concat_length]

/-! ### Variation-engine claims -/

/-- C5: the random seed is copied verbatim by the variation operators:
`mutate` preserves the input genotype's seed, and `crossover` copies parent1's
seed when `first_best` is true and parent2's seed when it is false — never
blending or altering it. -/
theorem mutate_crossover_seed_lineage {β γ δ : Type}
    (BE : BodyEncoder β δ) (BR : BrainEncoder γ)
    (g p1 p2 : Genotype β γ) (db1 db2 : δ) (rng rng' : Rng) :
    (Genotype.mutate BE BR g db1 db2 rng).1.random_seed = g.random_seed ∧
    (Genotype.crossover BE BR p1 p2 rng' true).1.random_seed = p1.random_seed ∧
    (Genotype.crossover BE BR p1 p2 rng' false).1.random_seed = p2.random_seed :=
  ⟨rfl, rfl, rfl⟩

/-- C6: the composite genotype produced by `random` draws its `random_seed`
with `randint(1, 10000)` from the supplied random source, so the seed always
lies in the inclusive range `[1, 10000]`. -/
theorem random_seed_in_range {β γ δ : Type}
    (BE : BodyEncoder β δ) (BR : BrainEncoder γ)
    (innov_db_body : δ) (rng : Rng) (num_initial_mutations robot_grid_size : Nat) :
    1 ≤ (Genotype.random BE BR innov_db_body rng num_initial_mutations
        robot_grid_size).1.random_seed ∧
    (Genotype.random BE BR innov_db_body rng num_initial_mutations
        robot_grid_size).1.random_seed ≤ 10000 := by
  simp only [Genotype.random, Rng.randint, Rng.next]
  omega

/-- C7: fixed delegation parameters: `mutate` calls the brain encoder's
perturbation with structural-change probability 0, per-value probability 1/2
and magnitude bound 8/10, and passes the body encoder the fixed parameter
bundle and the freshly seeded multineat RNG; `crossover` calls the body
encoder's recombination with both policy flags false and the brain encoder's
crossover with blend ratio 1/2, forwarding `first_best` unchanged. -/
theorem fixed_delegation_parameters {β γ δ : Type}
    (BE : BodyEncoder β δ) (BR : BrainEncoder γ)
    (g p1 p2 : Genotype β γ) (db1 db2 : δ) (rng rng' : Rng) (fb : Bool) :
    (Genotype.mutate BE BR g db1 db2 rng).1.brain
      = BR.brain_mutation g.brain 0 (1/2) (8/10) ∧
    (Genotype.mutate BE BR g db1 db2 rng).1.body
      = (BE.mutate_v1 g.body _MULTINEAT_PARAMS db1
          (_multineat_rng_from_random rng).1).1 ∧
    (Genotype.crossover BE BR p1 p2 rng' fb).1.body
      = BE.crossover_v1 p1.body p2.body _MULTINEAT_PARAMS
          (_multineat_rng_from_random rng').1 false false ∧
    (Genotype.crossover BE BR p1 p2 rng' fb).1.brain
      = BR.brain_crossover p1.brain p2.brain (1/2) fb :=
  ⟨rfl, rfl, rfl, rfl⟩

/-- C8: determinism of `random`: with identical random-source state, identical
innovation-database state and equal numeric arguments, the results (genotype,
updated innovation database, updated random source) are identical.  The
encoders are pure functions of their inputs in this embedding, matching the
claim's determinism assumption on them. -/
theorem random_deterministic {β γ δ : Type}
    (BE : BodyEncoder β δ) (BR : BrainEncoder γ)
    (db1 db2 : δ) (rng1 rng2 : Rng) (n1 n2 s1 s2 : Nat)
    (hdb : db1 = db2) (hrng : rng1 = rng2) (hn : n1 = n2) (hs : s1 = s2) :
    Genotype.random BE BR db1 rng1 n1 s1 = Genotype.random BE BR db2 rng2 n2 s2 := by
  subst hdb; subst hrng; subst hn; subst hs; rfl

/-- Witness for C8 at a concrete instantiation. -/
theorem random_deterministic_witness :
    Genotype.random natBodyEncoder natBrainEncoder 0 rng0 5 8
      = Genotype.random natBodyEncoder natBrainEncoder 0 rng0 5 8 :=
  random_deterministic natBodyEncoder natBrainEncoder 0 0 rng0 rng0 5 5 8 8
    rfl rfl rfl rfl

/-- C10: every operator first consumes exactly one `randint(0, 2^31)` draw
from the supplied random source to seed the fresh multineat body RNG: the
helper performs exactly one draw whose value is at most `2^31`, the multineat
RNG handed to the body encoder is seeded with that first draw, and `mutate`
and `crossover` advance the random source by exactly that one draw (in
particular `crossover` advances it even though the child's seed is copied from
a parent). -/
theorem one_draw_seeds_body_rng {β γ δ : Type}
    (BE : BodyEncoder β δ) (BR : BrainEncoder γ)
    (g p1 p2 : Genotype β γ) (db1 db2 db3 : δ) (rng : Rng) (fb : Bool)
    (n s : Nat) :
    _multineat_rng_from_random rng
      = (⟨(rng.randint 0 (2 ^ 31)).1⟩, ⟨rng.stream, rng.pos + 1⟩) ∧
    (_multineat_rng_from_random rng).1.seed ≤ 2 ^ 31 ∧
    (Genotype.crossover BE BR p1 p2 rng fb).2 = ⟨rng.stream, rng.pos + 1⟩ ∧
    (Genotype.mutate BE BR g db1 db2 rng).2.2 = ⟨rng.stream, rng.pos + 1⟩ ∧
    (Genotype.random BE BR db3 rng n s).1.body
      = (BE.random_v1 db3 (_multineat_rng_from_random rng).1 _MULTINEAT_PARAMS
          ActivationFunction.TANH n).1 ∧
    (Genotype.random BE BR db3 rng n s).1.brain
      = (BR.random_array_genotype s (_multineat_rng_from_random rng).2).1 := by
  refine ⟨rfl, ?_, rfl, rfl, rfl, rfl⟩
  simp only [_multineat_rng_from_random, Rng.randint, Rng.next]
  omega

/-- C9: frame property of the operators over the heap of genotype objects:
`mutate` and `crossover` leave every pre-existing object (in particular their
input genotypes) unchanged, and each of `mutate`, `crossover` and `random`
returns a freshly allocated address holding the newly constructed genotype. -/
theorem operators_never_modify_inputs {β γ δ : Type}
    (BE : BodyEncoder β δ) (BR : BrainEncoder γ)
    (h : Heap β γ) (a a1 a2 : Nat) (g p1 p2 : Genotype β γ)
    (db1 db2 db3 : δ) (rng rng1 rng2 : Rng) (fb : Bool) (n s : Nat)
    (ha : h.get a = some g) (h1 : h.get a1 = some p1) (h2 : h.get a2 = some p2) :
    (∃ hp, Genotype.mutateH BE BR h a db1 db2 rng
        = some (hp, h.objs.length, (Genotype.mutate BE BR g db1 db2 rng).2) ∧
      hp.get h.objs.length = some (Genotype.mutate BE BR g db1 db2 rng).1 ∧
      ∀ x, x < h.objs.length → hp.get x = h.get x) ∧
    (∃ hp, Genotype.crossoverH BE BR h a1 a2 rng1 fb
        = some (hp, h.objs.length, (Genotype.crossover BE BR p1 p2 rng1 fb).2) ∧
      hp.get h.objs.length = some (Genotype.crossover BE BR p1 p2 rng1 fb).1 ∧
      ∀ x, x < h.objs.length → hp.get x = h.get x) ∧
    ((Genotype.randomH BE BR h db3 rng2 n s).2.1 = h.objs.length ∧
      (Genotype.randomH BE BR h db3 rng2 n s).1.get h.objs.length
        = some (Genotype.random BE BR db3 rng2 n s).1 ∧
      ∀ x, x < h.objs.length →
        (Genotype.randomH BE BR h db3 rng2 n s).1.get x = h.get x) := by
  refine ⟨⟨(h.alloc (Genotype.mutate BE BR g db1 db2 rng).1).1, ?_, ?_, ?_⟩,
    ⟨(h.alloc (Genotype.crossover BE BR p1 p2 rng1 fb).1).1, ?_, ?_, ?_⟩, ?_, ?_, ?_⟩
  · simp [Genotype.mutateH, ha, Heap.alloc]
  · exact Heap.get_alloc_self h _
  · intro x hx; exact Heap.get_alloc_lt h _ x hx
  · simp [Genotype.crossoverH, h1, h2, Heap.alloc]
  · exact Heap.get_alloc_self h _
  · intro x hx; exact Heap.get_alloc_lt h _ x hx
  · rfl
  · exact Heap.get_alloc_self h _
  · intro x hx; exact Heap.get_alloc_lt h _ x hx

/-- Witness for C9 at a concrete instantiation. -/
theorem operators_never_modify_inputs_witness :
    ((⟨[⟨1, 2, 3⟩, ⟨4, 5, 6⟩]⟩ : Heap Nat Nat).get 0 = some ⟨1, 2, 3⟩) ∧
    ((∃ hp, Genotype.mutateH natBodyEncoder natBrainEncoder
          (⟨[⟨1, 2, 3⟩, ⟨4, 5, 6⟩]⟩ : Heap Nat Nat) 0 0 0 rng0
        = some (hp, 2, (Genotype.mutate natBodyEncoder natBrainEncoder
            ⟨1, 2, 3⟩ 0 0 rng0).2) ∧
      hp.get 2 = some (Genotype.mutate natBodyEncoder natBrainEncoder
        ⟨1, 2, 3⟩ 0 0 rng0).1 ∧
      ∀ x, x < 2 → hp.get x = (⟨[⟨1, 2, 3⟩, ⟨4, 5, 6⟩]⟩ : Heap Nat Nat).get x) ∧
    (∃ hp, Genotype.crossoverH natBodyEncoder natBrainEncoder
          (⟨[⟨1, 2, 3⟩, ⟨4, 5, 6⟩]⟩ : Heap Nat Nat) 0 1 rng0 true
        = some (hp, 2, (Genotype.crossover natBodyEncoder natBrainEncoder
            ⟨1, 2, 3⟩ ⟨4, 5, 6⟩ rng0 true).2) ∧
      hp.get 2 = some (Genotype.crossover natBodyEncoder natBrainEncoder
        ⟨1, 2, 3⟩ ⟨4, 5, 6⟩ rng0 true).1 ∧
      ∀ x, x < 2 → hp.get x = (⟨[⟨1, 2, 3⟩, ⟨4, 5, 6⟩]⟩ : Heap Nat Nat).get x) ∧
    ((Genotype.randomH natBodyEncoder natBrainEncoder
        (⟨[⟨1, 2, 3⟩, ⟨4, 5, 6⟩]⟩ : Heap Nat Nat) 0 rng0 5 8).2.1 = 2 ∧
      (Genotype.randomH natBodyEncoder natBrainEncoder
        (⟨[⟨1, 2, 3⟩, ⟨4, 5, 6⟩]⟩ : Heap Nat Nat) 0 rng0 5 8).1.get 2
        = some (Genotype.random natBodyEncoder natBrainEncoder 0 rng0 5 8).1 ∧
      ∀ x, x < 2 →
        (Genotype.randomH natBodyEncoder natBrainEncoder
          (⟨[⟨1, 2, 3⟩, ⟨4, 5, 6⟩]⟩ : Heap Nat Nat) 0 rng0 5 8).1.get x
          = (⟨[⟨1, 2, 3⟩, ⟨4, 5, 6⟩]⟩ : Heap Nat Nat).get x)) :=
  ⟨rfl, operators_never_modify_inputs natBodyEncoder natBrainEncoder
    (⟨[⟨1, 2, 3⟩, ⟨4, 5, 6⟩]⟩ : Heap Nat Nat) 0 0 1 ⟨1, 2, 3⟩ ⟨1, 2, 3⟩ ⟨4, 5, 6⟩
    0 0 0 rng0 rng0 rng0 true 5 8 rfl rfl rfl⟩

/-- In a row list with pairwise-distinct keys, `find?` on a stored key returns
exactly the stored pair. -/
theorem find?_eq_of_mem_of_nodup {α : Type} :
    ∀ (R : List (Nat × α)) (k : Nat) (v : α),
      (R.map Prod.fst).Nodup → (k, v) ∈ R →
      R.find? (fun t => decide (t.1 = k)) = some (k, v) := by
  intro R
  induction R with
  | nil => intro k v _ hm; simp at hm
  | cons p R ih =>
    intro k v hnd hm
    rw [List.map_cons, List.nodup_cons] at hnd
    rcases List.mem_cons.mp hm with h | h
    · rw [← h]
      exact List.find?_cons_of_pos _ (by simp)
    · have hk : k ∈ R.map Prod.fst := List.mem_map.mpr ⟨(k, v), h, rfl⟩
      have hne : p.1 ≠ k := fun he => hnd.1 (he ▸ hk)
      rw [List.find?_cons_of_neg _ (by simpa using hne)]
      exact ih k v hnd.2 h

/-- Looking up the keys of a distinct-key zip in order, through `find?` under
`mapM`, returns exactly the value list. -/
theorem mapM_find?_zip {α : Type} (R : List (Nat × α))
    (hnd : (R.map Prod.fst).Nodup) :
    ∀ (ks : List Nat) (vs : List α), ks.length = vs.length →
      (∀ p ∈ ks.zip vs, p ∈ R) →
      ks.mapM (fun i => (R.find? (fun t => decide (t.1 = i))).map (·.2))
        = some vs := by
  intro ks
  induction ks with
  | nil =>
    intro vs h _
    cases vs with
    | nil => rfl
    | cons a l => simp at h
  | cons k ks ih =>
    intro vs h hmem
    cases vs with
    | nil => simp at h
    | cons v vs =>
      have hp : (k, v) ∈ R := hmem (k, v) (by simp [List.zip_cons_cons])
      rw [List.mapM_cons, find?_eq_of_mem_of_nodup R k v hnd hp,
        ih vs (by simpa using h)
          (fun p hp2 => hmem p (by simp [List.zip_cons_cons, hp2]))]
      rfl

/-- Collecting the assigned primary keys after the flush keeps them all. -/
theorem filterMap_id_map_some {α : Type} (l : List α) :
    (l.map some).filterMap id = l := by
  induction l with
  | nil => rfl
  | cons a l ih => simp [List.filterMap_cons, ih]

/-- A filtered distinct-key row list has at most as many rows as there are
distinct requested ids. -/
theorem filtered_length_le_dedup {α : Type} (rows : List (Nat × α))
    (ids : List Nat) (hnd : (rows.map Prod.fst).Nodup) :
    (rows.filter (fun t => decide (t.1 ∈ ids))).length ≤ ids.dedup.length := by
  have hsub : List.Sublist
      ((rows.filter (fun t => decide (t.1 ∈ ids))).map Prod.fst)
      (rows.map Prod.fst) :=
    List.Sublist.map Prod.fst (List.filter_sublist rows)
  have hkeysnd : ((rows.filter (fun t => decide (t.1 ∈ ids))).map Prod.fst).Nodup :=
    List.Nodup.sublist hsub hnd
  have hss : (rows.filter (fun t => decide (t.1 ∈ ids))).map Prod.fst
      ⊆ ids.dedup := by
    intro k hk
    rcases List.mem_map.mp hk with ⟨p, hpmem, hpk⟩
    rcases List.mem_filter.mp hpmem with ⟨_, hpin⟩
    rw [List.mem_dedup]
    rw [decide_eq_true_eq] at hpin
    exact hpk ▸ hpin
  have := (List.Nodup.subperm hkeysnd hss).length_le
  rw [List.length_map] at this
  exact this

/-- A list that is not duplicate-free has strictly fewer distinct members than
members. -/
theorem dedup_length_lt_of_not_nodup {α : Type} [DecidableEq α] (l : List α)
    (h : ¬ l.Nodup) : l.dedup.length < l.length := by
  have hs := List.dedup_sublist l
  rcases Nat.lt_or_ge l.dedup.length l.length with hlt | hge
  · exact hlt
  · exact absurd (List.Sublist.eq_of_length hs (Nat.le_antisymm hs.length_le hge) ▸
      List.nodup_dedup l) h

/-- Helper: `from_database` yields the incompatibility error exactly when the number
of stored rows matching the request differs from the length of the request
(duplicates counted); every other outcome (success or a component/lookup
failure) is a different constructor. -/
theorem from_database_incompatible_iff_aux {β γ σb σr σs : Type}
    (bodyFromDb : σb → List Nat → Option (List β))
    (brainFromDb : σr → List Nat → Option (List γ))
    (seedFromDb : σs → List Nat → Option (List Int))
    (db : DbState σb σr σs) (ids : List Nat) :
    GenotypeSerializer.from_database bodyFromDb brainFromDb seedFromDb db ids
      = .error .incompatible ↔
    (db.genotypeRows.filter (fun t => decide (t.1 ∈ ids))).length ≠ ids.length := by
  simp only [GenotypeSerializer.from_database]
  split
  next h => simpa using h
  next h =>
    constructor
    · intro heq
      exfalso
      split at heq
      · simp at heq
      · split at heq <;> simp at heq
    · intro hr
      exact absurd hr h

/-- Closed form of `to_database` when the component serializers return id
lists of the input length: the composite ids are the next consecutive block of
primary keys, in input order; the length assertion cannot fire. -/
theorem to_database_eq {β γ σb σr σs : Type}
    (bodyToDb : σb → List β → List Nat × σb)
    (brainToDb : σr → List γ → List Nat × σr)
    (seedToDb : σs → List Int → List Nat × σs)
    (db : DbState σb σr σs) (L : List (Genotype β γ))
    (hb : (bodyToDb db.bodyStore (L.map (·.body))).1.length = L.length)
    (hr : (brainToDb db.brainStore (L.map (·.brain))).1.length = L.length)
    (hs : (seedToDb db.seedStore (L.map (·.random_seed))).1.length = L.length) :
    GenotypeSerializer.to_database bodyToDb brainToDb seedToDb db L =
      some (List.range' db.genotypeNext L.length,
        { bodyStore := (bodyToDb db.bodyStore (L.map (·.body))).2,
          brainStore := (brainToDb db.brainStore (L.map (·.brain))).2,
          seedStore := (seedToDb db.seedStore (L.map (·.random_seed))).2,
          genotypeNext := db.genotypeNext + L.length,
          genotypeRows := db.genotypeRows ++
            (List.range' db.genotypeNext L.length).zip
              (zip3Rows (bodyToDb db.bodyStore (L.map (·.body))).1
                (brainToDb db.brainStore (L.map (·.brain))).1
                (seedToDb db.seedStore (L.map (·.random_seed))).1) }) := by
  have hlen : (zip3Rows (bodyToDb db.bodyStore (L.map (·.body))).1
      (brainToDb db.brainStore (L.map (·.brain))).1
      (seedToDb db.seedStore (L.map (·.random_seed))).1).length = L.length :=
    (zip3Rows_length _ _ _ (hr.trans hb.symm) (hs.trans hb.symm)).trans hb
  simp only [GenotypeSerializer.to_database, filterMap_id_map_some, hlen,
    List.length_range']
  simp

/-- Reading a freshly inserted consecutive block back out of the genotype
table reconstructs the serialized genotypes in insertion order, assuming the
component serializers round-trip their own batches. -/
theorem from_database_of_fresh_block {β γ σb σr σs : Type}
    (bodyFromDb : σb → List Nat → Option (List β))
    (brainFromDb : σr → List Nat → Option (List γ))
    (seedFromDb : σs → List Nat → Option (List Int))
    (sb : σb) (sr : σr) (ss : σs)
    (old : List (Nat × DbGenotypeRow)) (nx : Nat)
    (bids rids sids : List Nat) (L : List (Genotype β γ))
    (hwf : ∀ p ∈ old, p.1 < nx)
    (hb : bids.length = L.length) (hr : rids.length = L.length)
    (hsl : sids.length = L.length)
    (hbrt : bodyFromDb sb bids = some (L.map (·.body)))
    (hrrt : brainFromDb sr rids = some (L.map (·.brain)))
    (hsrt : seedFromDb ss sids = some (L.map (·.random_seed))) :
    GenotypeSerializer.from_database bodyFromDb brainFromDb seedFromDb
      ⟨sb, sr, ss, nx + L.length,
        old ++ (List.range' nx L.length).zip (zip3Rows bids rids sids)⟩
      (List.range' nx L.length) = .ok L := by
  have htrip : (zip3Rows bids rids sids).length = L.length :=
    (zip3Rows_length _ _ _ (hr.trans hb.symm) (hsl.trans hb.symm)).trans hb
  have hrows : (old ++ (List.range' nx L.length).zip
        (zip3Rows bids rids sids)).filter
        (fun t => decide (t.1 ∈ List.range' nx L.length))
      = (List.range' nx L.length).zip (zip3Rows bids rids sids) := by
    rw [List.filter_append]
    have h1 : old.filter (fun t => decide (t.1 ∈ List.range' nx L.length)) = [] := by
      rw [List.filter_eq_nil_iff]
      intro p hp
      have hlt := hwf p hp
      simp only [decide_eq_true_eq, List.mem_range'_1]
      omega
    have h2 : ((List.range' nx L.length).zip (zip3Rows bids rids sids)).filter
        (fun t => decide (t.1 ∈ List.range' nx L.length))
        = (List.range' nx L.length).zip (zip3Rows bids rids sids) := by
      rw [List.filter_eq_self]
      intro p hp
      have := (List.of_mem_zip hp).1
      simpa using this
    rw [h1, h2, List.nil_append]
  have hkeys : (((List.range' nx L.length).zip
        (zip3Rows bids rids sids)).map Prod.fst) = List.range' nx L.length :=
    List.map_fst_zip _ _ (by rw [List.length_range', htrip])
  have hmapm : (List.range' nx L.length).mapM
      (fun i => ((((List.range' nx L.length).zip
        (zip3Rows bids rids sids)).find? (fun t => decide (t.1 = i))).map (·.2)))
      = some (zip3Rows bids rids sids) := by
    apply mapM_find?_zip
    · rw [hkeys]
      exact List.nodup_range' _ _
    · rw [List.length_range', htrip]
    · intro p hp
      exact hp
  have hcl : (((List.range' nx L.length).zip (zip3Rows bids rids sids))).length
      = (List.range' nx L.length).length := by
    rw [List.length_zip, List.length_range', htrip]
    exact Nat.min_self _
  simp only [GenotypeSerializer.from_database, hrows]
  rw [if_neg (by rw [hcl]; exact fun h => h rfl)]
  rw [hmapm]
  simp only [zip3Rows_map_body _ _ _ (hr.trans hb.symm) (hsl.trans hb.symm),
    zip3Rows_map_brain _ _ _ (hr.trans hb.symm) (hsl.trans hb.symm),
    zip3Rows_map_seed _ _ _ (hr.trans hb.symm) (hsl.trans hb.symm),
    hbrt, hrrt, hsrt, zip3Geno_proj]

/-! ### Persistence-adapter claims -/

/-- C1: round trip through persistence: serializing a non-empty ordered list
of genotypes and deserializing the returned ids yields an equal list (equal
body, brain and seed in the same order), given that each component serializer
round-trips its own batch and preserves its length, and that all existing
primary keys are below the autoincrement counter. -/
theorem to_from_database_roundtrip {β γ σb σr σs : Type}
    (bodyToDb : σb → List β → List Nat × σb)
    (brainToDb : σr → List γ → List Nat × σr)
    (seedToDb : σs → List Int → List Nat × σs)
    (bodyFromDb : σb → List Nat → Option (List β))
    (brainFromDb : σr → List Nat → Option (List γ))
    (seedFromDb : σs → List Nat → Option (List Int))
    (db : DbState σb σr σs) (L : List (Genotype β γ))
    (hL : L ≠ [])
    (hwf : ∀ p ∈ db.genotypeRows, p.1 < db.genotypeNext)
    (hb : (bodyToDb db.bodyStore (L.map (·.body))).1.length = L.length)
    (hr : (brainToDb db.brainStore (L.map (·.brain))).1.length = L.length)
    (hs : (seedToDb db.seedStore (L.map (·.random_seed))).1.length = L.length)
    (hbrt : bodyFromDb (bodyToDb db.bodyStore (L.map (·.body))).2
        (bodyToDb db.bodyStore (L.map (·.body))).1 = some (L.map (·.body)))
    (hrrt : brainFromDb (brainToDb db.brainStore (L.map (·.brain))).2
        (brainToDb db.brainStore (L.map (·.brain))).1 = some (L.map (·.brain)))
    (hsrt : seedFromDb (seedToDb db.seedStore (L.map (·.random_seed))).2
        (seedToDb db.seedStore (L.map (·.random_seed))).1
        = some (L.map (·.random_seed))) :
    ∃ db2, GenotypeSerializer.to_database bodyToDb brainToDb seedToDb db L
        = some (List.range' db.genotypeNext L.length, db2) ∧
      GenotypeSerializer.from_database bodyFromDb brainFromDb seedFromDb db2
        (List.range' db.genotypeNext L.length) = .ok L := by
  refine ⟨_, to_database_eq bodyToDb brainToDb seedToDb db L hb hr hs, ?_⟩
  have := hL
  exact from_database_of_fresh_block bodyFromDb brainFromDb seedFromDb
    (bodyToDb db.bodyStore (L.map (·.body))).2
    (brainToDb db.brainStore (L.map (·.brain))).2
    (seedToDb db.seedStore (L.map (·.random_seed))).2
    db.genotypeRows db.genotypeNext
    (bodyToDb db.bodyStore (L.map (·.body))).1
    (brainToDb db.brainStore (L.map (·.brain))).1
    (seedToDb db.seedStore (L.map (·.random_seed))).1
    L hwf hb hr hs hbrt hrrt hsrt

/-- The empty database, over the concrete model stores. -/
def exDb0 : DbState (ModelStore Nat) (ModelStore Nat) (ModelStore Int) :=
  ⟨⟨0, []⟩, ⟨0, []⟩, ⟨0, []⟩, 0, []⟩

/-- Witness for C1 at a concrete instantiation: a two-genotype batch written
to the empty database and read back. -/
theorem to_from_database_roundtrip_witness :
    ∃ db2, GenotypeSerializer.to_database ModelStore.toDb ModelStore.toDb
        ModelStore.toDb exDb0 ([⟨1, 2, 3⟩, ⟨4, 5, 6⟩] : List (Genotype Nat Nat))
        = some (List.range' 0 2, db2) ∧
      GenotypeSerializer.from_database ModelStore.fromDb ModelStore.fromDb
        ModelStore.fromDb db2 (List.range' 0 2)
        = .ok ([⟨1, 2, 3⟩, ⟨4, 5, 6⟩] : List (Genotype Nat Nat)) :=
  to_from_database_roundtrip ModelStore.toDb ModelStore.toDb ModelStore.toDb
    ModelStore.fromDb ModelStore.fromDb ModelStore.fromDb exDb0
    [⟨1, 2, 3⟩, ⟨4, 5, 6⟩] (by decide) (by simp [exDb0]) rfl rfl rfl rfl rfl rfl

/-- C4: `to_database` returns exactly as many assigned record ids as input
genotypes, in input order (the next consecutive block of distinct primary
keys); under the schema's non-null autoincrement guarantee the id collection
keeps every inserted record, so the internal length assertion never fires and
the call cannot fail. -/
theorem to_database_returns_all_ids_in_order {β γ σb σr σs : Type}
    (bodyToDb : σb → List β → List Nat × σb)
    (brainToDb : σr → List γ → List Nat × σr)
    (seedToDb : σs → List Int → List Nat × σs)
    (db : DbState σb σr σs) (L : List (Genotype β γ))
    (hb : (bodyToDb db.bodyStore (L.map (·.body))).1.length = L.length)
    (hr : (brainToDb db.brainStore (L.map (·.brain))).1.length = L.length)
    (hs : (seedToDb db.seedStore (L.map (·.random_seed))).1.length = L.length) :
    ∃ ids db2, GenotypeSerializer.to_database bodyToDb brainToDb seedToDb db L
        = some (ids, db2) ∧
      ids.length = L.length ∧ ids = List.range' db.genotypeNext L.length ∧
      ids.Nodup :=
  ⟨_, _, to_database_eq bodyToDb brainToDb seedToDb db L hb hr hs,
    List.length_range' _ _ _, rfl, List.nodup_range' _ _⟩

/-- Witness for C4 at a concrete instantiation. -/
theorem to_database_returns_all_ids_in_order_witness :
    ∃ ids db2, GenotypeSerializer.to_database ModelStore.toDb ModelStore.toDb
        ModelStore.toDb exDb0 ([⟨7, 8, 9⟩] : List (Genotype Nat Nat))
        = some (ids, db2) ∧
      ids.length = 1 ∧ ids = List.range' 0 1 ∧ ids.Nodup :=
  to_database_returns_all_ids_in_order ModelStore.toDb ModelStore.toDb
    ModelStore.toDb exDb0 [⟨7, 8, 9⟩] rfl rfl rfl

/-- If a requested id is absent from a distinct-key table, strictly fewer rows
match than ids were requested. -/
theorem filtered_length_lt_of_missing {α : Type} (rows : List (Nat × α))
    (ids : List Nat) (x : Nat) (hnd : (rows.map Prod.fst).Nodup)
    (hx : x ∈ ids) (hxm : x ∉ rows.map Prod.fst) :
    (rows.filter (fun t => decide (t.1 ∈ ids))).length < ids.length := by
  have hsub : List.Sublist
      ((rows.filter (fun t => decide (t.1 ∈ ids))).map Prod.fst)
      (rows.map Prod.fst) :=
    List.Sublist.map Prod.fst (List.filter_sublist rows)
  have hkeysnd := List.Nodup.sublist hsub hnd
  have hss : (rows.filter (fun t => decide (t.1 ∈ ids))).map Prod.fst
      ⊆ (ids.dedup).erase x := by
    intro k hk
    rcases List.mem_map.mp hk with ⟨p, hpmem, hpk⟩
    rcases List.mem_filter.mp hpmem with ⟨hpr, hpin⟩
    rw [decide_eq_true_eq] at hpin
    have hkne : k ≠ x := by
      intro he
      exact hxm (he ▸ hpk ▸ List.mem_map.mpr ⟨p, hpr, rfl⟩)
    rw [List.mem_erase_of_ne hkne, List.mem_dedup]
    exact hpk ▸ hpin
  have hle := (List.Nodup.subperm hkeysnd hss).length_le
  rw [List.length_map] at hle
  have hxd : x ∈ ids.dedup := List.mem_dedup.mpr hx
  have herase : ((ids.dedup).erase x).length = ids.dedup.length - 1 :=
    List.length_erase_of_mem hxd
  have hdle : ids.dedup.length ≤ ids.length := (List.dedup_sublist ids).length_le
  have hpos : 0 < ids.dedup.length := List.length_pos.mpr (List.ne_nil_of_mem hxd)
  omega

/-- C2 (amended): `from_database` raises the incompatibility error exactly
when the number of distinct stored rows matching the requested ids differs
from the total number of requested ids (duplicates counted) — so it never
silently returns a truncated or padded list; in particular, when the stored
primary keys are distinct, any request containing a never-assigned id raises
the incompatibility error. -/
theorem from_database_incompatible_condition {β γ σb σr σs : Type}
    (bodyFromDb : σb → List Nat → Option (List β))
    (brainFromDb : σr → List Nat → Option (List γ))
    (seedFromDb : σs → List Nat → Option (List Int))
    (db : DbState σb σr σs) (ids : List Nat) :
    (GenotypeSerializer.from_database bodyFromDb brainFromDb seedFromDb db ids
        = .error .incompatible ↔
      (db.genotypeRows.filter (fun t => decide (t.1 ∈ ids))).length
        ≠ ids.length) ∧
    (∀ x, x ∈ ids → (db.genotypeRows.map Prod.fst).Nodup →
      x ∉ db.genotypeRows.map Prod.fst →
      GenotypeSerializer.from_database bodyFromDb brainFromDb seedFromDb db ids
        = .error .incompatible) := by
  refine ⟨from_database_incompatible_iff_aux bodyFromDb brainFromDb seedFromDb
    db ids, ?_⟩
  intro x hx hnd hxm
  rw [from_database_incompatible_iff_aux]
  have hlt := filtered_length_lt_of_missing db.genotypeRows ids x hnd hx hxm
  omega

/-- A database holding exactly one stored genotype, under id 0. -/
def exDb1 : DbState (ModelStore Nat) (ModelStore Nat) (ModelStore Int) :=
  ⟨⟨1, [(0, 7)]⟩, ⟨1, [(0, 8)]⟩, ⟨1, [(0, 9)]⟩, 1, [(0, ⟨0, 0, 0⟩)]⟩

/-- Counterexample to C2 as stated: for the request `[0, 0]` on a database
storing id 0, the number of distinct stored rows matching (one) equals the
number of distinct requested ids (one) — so the claim's "if and only if"
predicts no error — yet `from_database` raises the incompatibility error. -/
theorem from_database_incompatible_iff_counterexample :
    ((exDb1.genotypeRows.filter
        (fun t => decide (t.1 ∈ ([0, 0] : List Nat)))).map Prod.fst).dedup.length
      = (([0, 0] : List Nat)).dedup.length ∧
    GenotypeSerializer.from_database ModelStore.fromDb ModelStore.fromDb
      ModelStore.fromDb exDb1 [0, 0] = .error .incompatible :=
  ⟨rfl, rfl⟩

/-- Witness for the amended C2: requesting the never-assigned id 999999
alongside the stored id 0 raises the incompatibility error. -/
theorem from_database_incompatible_condition_witness :
    GenotypeSerializer.from_database ModelStore.fromDb ModelStore.fromDb
      ModelStore.fromDb exDb1 [0, 999999] = .error .incompatible :=
  (from_database_incompatible_condition ModelStore.fromDb ModelStore.fromDb
    ModelStore.fromDb exDb1 [0, 999999]).2 999999 (by decide) (by decide)
    (by decide)

/-- C3 (amended): duplicate request ids are not supported: when the stored
primary keys are distinct, any request list containing a duplicated id makes
`from_database` raise the incompatibility error instead of resolving the
duplicates to reconstructed copies. -/
theorem from_database_duplicates_error {β γ σb σr σs : Type}
    (bodyFromDb : σb → List Nat → Option (List β))
    (brainFromDb : σr → List Nat → Option (List γ))
    (seedFromDb : σs → List Nat → Option (List Int))
    (db : DbState σb σr σs) (ids : List Nat)
    (hnd : (db.genotypeRows.map Prod.fst).Nodup) (hdup : ¬ ids.Nodup) :
    GenotypeSerializer.from_database bodyFromDb brainFromDb seedFromDb db ids
      = .error .incompatible := by
  rw [from_database_incompatible_iff_aux]
  have h1 := filtered_length_le_dedup db.genotypeRows ids hnd
  have h2 := dedup_length_lt_of_not_nodup ids hdup
  omega

/-- A database holding two stored genotypes, under ids 0 and 1. -/
def exDb2 : DbState (ModelStore Nat) (ModelStore Nat) (ModelStore Int) :=
  ⟨⟨2, [(0, 7), (1, 17)]⟩, ⟨2, [(0, 8), (1, 18)]⟩, ⟨2, [(0, 9), (1, 19)]⟩, 2,
    [(0, ⟨0, 0, 0⟩), (1, ⟨1, 1, 1⟩)]⟩

/-- Counterexample to C3 as stated: ids 0 and 1 are both stored, yet the
duplicate request `[0, 1, 0]` raises the incompatibility error instead of
returning three genotypes with content-equal first and third positions. -/
theorem from_database_duplicates_counterexample :
    (0, (⟨0, 0, 0⟩ : DbGenotypeRow)) ∈ exDb2.genotypeRows ∧
    (1, (⟨1, 1, 1⟩ : DbGenotypeRow)) ∈ exDb2.genotypeRows ∧
    GenotypeSerializer.from_database ModelStore.fromDb ModelStore.fromDb
      ModelStore.fromDb exDb2 [0, 1, 0] = .error .incompatible :=
  ⟨by decide, by decide, rfl⟩

/-- Witness for the amended C3 at a concrete duplicate request. -/
theorem from_database_duplicates_error_witness :
    GenotypeSerializer.from_database ModelStore.fromDb ModelStore.fromDb
      ModelStore.fromDb exDb2 [1, 1] = .error .incompatible :=
  from_database_duplicates_error ModelStore.fromDb ModelStore.fromDb
    ModelStore.fromDb exDb2 [1, 1] (by decide) (by decide)
